import Mathlib

set_option autoImplicit false

/-!
Verification of the amortization core of `src/mortgage.py` (MortgageVis).

The module-level functions `_p`, `_I`, `_f`, `_X`, `_total` and the
`Mortgage` class are embedded shallowly over exact rational arithmetic:
month indices and term lengths are natural numbers, all monetary values
and rates are rationals.  Rational division by zero is `0`, which models
the degenerate denominators that the Python code leaves unguarded.
-/

namespace MortgageVis

/-- Outstanding principal at step `k` — module function `_p` of
`src/mortgage.py`:
`A = P*(1+alpha)**k - P*(1+alpha)**N * ((1+alpha)**k - 1) / ((1+alpha)**N - 1)`. -/
def _p (k : ℕ) (P : ℚ) (N : ℕ) (α : ℚ) : ℚ :=
  P * (1 + α) ^ k - P * (1 + α) ^ N * ((1 + α) ^ k - 1) / ((1 + α) ^ N - 1)

/-- Interest payment at step `k` — module function `_I`:
`alpha * _p(k, P, N, alpha)`. -/
def _I (k : ℕ) (P : ℚ) (N : ℕ) (α : ℚ) : ℚ :=
  α * _p k P N α

/-- Fixed monthly payment — module function `_f`:
`alpha * (1+alpha)**N * P / ((1+alpha)**N - 1)`. -/
def _f (P : ℚ) (N : ℕ) (α : ℚ) : ℚ :=
  α * (1 + α) ^ N * P / ((1 + α) ^ N - 1)

/-- Amount paid toward principal at step `k` — module function `_X`:
`_f(P, N, alpha) - alpha * _p(k, P, N, alpha)`. -/
def _X (k : ℕ) (P : ℚ) (N : ℕ) (α : ℚ) : ℚ :=
  _f P N α - α * _p k P N α

/-- Total repayment over the term — module function `_total`:
`N * _f(P, N, alpha)`. -/
def _total (P : ℚ) (N : ℕ) (α : ℚ) : ℚ :=
  N * _f P N α

/-- C1: for every loan and every month index `k` in `[0, N)`, the interest
portion plus the principal portion equals the fixed monthly payment:
`_I k + _X k = _f`, exactly (the algebraic identity
`α·p(k) + (f − α·p(k)) = f`). -/
theorem interest_plus_principal_eq_fixed_payment
    (k : ℕ) (P : ℚ) (N : ℕ) (α : ℚ) (hN : 0 < N) (hk : k < N) :
    _I k P N α + _X k P N α = _f P N α := by
  simp [_I, _X]

/-- Witness for C1 at the concrete loan `P = 100`, `N = 2`, `α = 1`, `k = 0`. -/
theorem interest_plus_principal_eq_fixed_payment_witness :
    0 < 2 ∧ 0 < 2 ∧ _I 0 100 2 1 + _X 0 100 2 1 = _f 100 2 1 :=
  ⟨by decide, by decide,
    interest_plus_principal_eq_fixed_payment 0 100 2 1 (by decide) (by decide)⟩

/-- C2: for every valid loan (`P ≥ 0`, `N > 0`) with monthly rate `α > 0`,
the closed-form balance satisfies both boundary conditions exactly:
`_p 0 = P` and `_p N = 0`. -/
theorem outstanding_principal_boundary
    (P : ℚ) (N : ℕ) (α : ℚ) (hP : 0 ≤ P) (hN : 0 < N) (hα : 0 < α) :
    _p 0 P N α = P ∧ _p N P N α = 0 := by
  have hq : (1 : ℚ) < 1 + α := by linarith
  have hD : (1 + α) ^ N - 1 ≠ 0 :=
    sub_ne_zero.mpr (ne_of_gt (one_lt_pow₀ hq hN.ne'))
  constructor
  · simp [_p]
  · unfold _p
    rw [mul_div_assoc, div_self hD, mul_one, sub_self]

/-- Witness for C2 at the concrete loan `P = 100`, `N = 2`, `α = 1`. -/
theorem outstanding_principal_boundary_witness :
    (0 : ℚ) ≤ 100 ∧ 0 < 2 ∧ (0 : ℚ) < 1 ∧
      (_p 0 100 2 1 = 100 ∧ _p 2 100 2 1 = 0) :=
  ⟨by norm_num, by decide, by norm_num,
    outstanding_principal_boundary 100 2 1 (by norm_num) (by decide) (by norm_num)⟩

/-- C3: the code of `_f` does not special-case `α = 0`.  At `α = 0` the
denominator `(1+α)^N − 1` is `0`, so the unguarded formula does not return
the straight-line payment `P/N` (in this exact embedding, where division by
zero yields `0`, the evaluation at the failing input `P = 100000`, `N = 360`,
`α = 0` gives `0`, not `P/N`). -/
theorem fixed_payment_zero_rate_unguarded :
    ((1 + (0 : ℚ)) ^ 360 - 1 = 0) ∧
      _f 100000 360 0 = 0 ∧ (100000 : ℚ) / 360 ≠ 0 := by
  refine ⟨by norm_num, by norm_num [_f], by norm_num⟩

/-- C6 counterexample: at `P = 0` (allowed by the stated `P ≥ 0`), `N = 2`,
`α = 1`, `k = 0`, the balance is not strictly decreasing:
`_p 1 = _p 0 = 0`. -/
theorem outstanding_principal_not_strict_decrease_at_zero_principal :
    (0 : ℚ) ≤ 0 ∧ 0 < 2 ∧ (0 : ℚ) < 1 ∧ 0 < 2 ∧
      ¬ (_p 1 0 2 1 < _p 0 0 2 1) := by
  refine ⟨le_refl _, by decide, by norm_num, by decide, by norm_num [_p]⟩

/-- Closed form of the outstanding balance:
`_p k = P·((1+α)^N − (1+α)^k) / ((1+α)^N − 1)` whenever the denominator is
nonzero. -/
lemma _p_closed_form (k : ℕ) (P : ℚ) (N : ℕ) (α : ℚ)
    (hD : (1 + α) ^ N - 1 ≠ 0) :
    _p k P N α = P * ((1 + α) ^ N - (1 + α) ^ k) / ((1 + α) ^ N - 1) := by
  unfold _p
  field_simp
  ring

/-- C6 (amended): for every loan with `P > 0`, `N > 0` and monthly rate
`α > 0`, the outstanding balance is strictly decreasing in the month index:
for all `k < N`, `_p (k+1) < _p k`. -/
theorem outstanding_principal_strict_decrease
    (P : ℚ) (N : ℕ) (α : ℚ) (k : ℕ)
    (hP : 0 < P) (hα : 0 < α) (hk : k < N) :
    _p (k + 1) P N α < _p k P N α := by
  have hq : (1 : ℚ) < 1 + α := by linarith
  have hN : N ≠ 0 := by omega
  have hD : (0 : ℚ) < (1 + α) ^ N - 1 := sub_pos.mpr (one_lt_pow₀ hq hN)
  rw [_p_closed_form _ _ _ _ (ne_of_gt hD), _p_closed_form _ _ _ _ (ne_of_gt hD)]
  have hpow : (1 + α) ^ k < (1 + α) ^ (k + 1) :=
    pow_lt_pow_right₀ hq (by omega)
  have hnum : P * ((1 + α) ^ N - (1 + α) ^ (k + 1)) <
      P * ((1 + α) ^ N - (1 + α) ^ k) :=
    mul_lt_mul_of_pos_left (by linarith) hP
  exact div_lt_div_of_pos_right hnum hD

/-- Witness for C6 (amended) at `P = 100`, `N = 2`, `α = 1`, `k = 0`. -/
theorem outstanding_principal_strict_decrease_witness :
    (0 : ℚ) < 100 ∧ (0 : ℚ) < 1 ∧ 0 < 2 ∧ _p 1 100 2 1 < _p 0 100 2 1 :=
  ⟨by norm_num, by norm_num, by decide,
    outstanding_principal_strict_decrease 100 2 1 0 (by norm_num) (by norm_num)
      (by decide)⟩

/-- Vectorized evaluation of `_p` on a sequence of month indices, as numpy
broadcasting performs it in `_p(ns, P, N, alpha)`: the scalar formula is
applied element-wise to the index array. -/
def _p_vec (ks : List ℕ) (P : ℚ) (N : ℕ) (α : ℚ) : List ℚ :=
  ks.map fun k =>
    P * (1 + α) ^ k - P * (1 + α) ^ N * ((1 + α) ^ k - 1) / ((1 + α) ^ N - 1)

/-- Vectorized `_I(ns, P, N, alpha)`: the scalar `alpha` is broadcast over
the array `_p(ns, ...)`. -/
def _I_vec (ks : List ℕ) (P : ℚ) (N : ℕ) (α : ℚ) : List ℚ :=
  (_p_vec ks P N α).map fun x => α * x

/-- Vectorized `_X(ns, P, N, alpha)`: the scalar `_f(P, N, alpha)` is
broadcast over the array `alpha * _p(ns, ...)`. -/
def _X_vec (ks : List ℕ) (P : ℚ) (N : ℕ) (α : ℚ) : List ℚ :=
  ((_p_vec ks P N α).map fun x => α * x).map fun y => _f P N α - y

/-- C9: for every loan and every finite sequence `ks` of month indices, the
vectorized forms of `_p`, `_I` and `_X` equal the element-wise map of the
corresponding scalar function over `ks`. -/
theorem vectorized_eq_map_scalar
    (ks : List ℕ) (P : ℚ) (N : ℕ) (α : ℚ) :
    _p_vec ks P N α = ks.map (fun k => _p k P N α) ∧
      _I_vec ks P N α = ks.map (fun k => _I k P N α) ∧
      _X_vec ks P N α = ks.map (fun k => _X k P N α) := by
  refine ⟨rfl, ?_, ?_⟩ <;>
    simp [_p_vec, _I_vec, _X_vec, _p, _I, _X, List.map_map, Function.comp]

/-- The constructor arguments of `Mortgage.__init__` (`total_price`,
`num_years`, `interest_rate`, `down_payment_fraction`, `PMI_rate=0.01`). -/
structure Params where
  total_price : ℚ
  num_years : ℕ
  interest_rate : ℚ
  down_payment_fraction : ℚ
  PMI_rate : ℚ := 1 / 100
deriving DecidableEq

namespace Mortgage

/-- Derived field `self.num_months = self.num_years * 12`. -/
def num_months (m : Params) : ℕ := m.num_years * 12

/-- Derived field `self.down_payment = self.down_payment_fraction * self.total_price`. -/
def down_payment (m : Params) : ℚ := m.down_payment_fraction * m.total_price

/-- Derived field `self.principal = self.total_price - self.down_payment`. -/
def principal (m : Params) : ℚ := m.total_price - down_payment m

/-- Fixed constant `self.tax_rate = 1.22e-2`. -/
def tax_rate : ℚ := 1.22e-2

/-- The monthly rate `alpha = self.interest_rate / 12.` used throughout the
class methods. -/
def alpha (m : Params) : ℚ := m.interest_rate / 12

/-- Field `self.monthly_PMI_payment` as set by `compute_summary`:
`PMI_rate * principal / 12` when `down_payment_fraction < 0.2`, else `0`. -/
def monthly_PMI_payment (m : Params) : ℚ :=
  if m.down_payment_fraction < 0.2 then m.PMI_rate * principal m / 12 else 0

/-- Method `Mortgage._compute_total_PMI_payment`: the balance series
`ps = _p(np.arange(N), P, N, alpha)` is evaluated in full, and the result is
`np.sum([self.monthly_PMI_payment for p in ps if p > 0.8 * self.principal])`. -/
def _compute_total_PMI_payment (m : Params) : ℚ :=
  let N := num_months m
  let ps := (List.range N).map fun n => _p n (principal m) N (alpha m)
  ((ps.filter fun p => 0.8 * principal m < p).map
    fun _ => monthly_PMI_payment m).sum

/-- Numpy rounding `np.round(x, 2)` rounds half to even (bankers rounding)
at two decimal places; `round_half_to_even` is the integer-valued
half-to-even rounding. -/
def round_half_to_even (x : ℚ) : ℤ :=
  if x - ⌊x⌋ = 1 / 2 then (if 2 ∣ ⌊x⌋ then ⌊x⌋ else ⌊x⌋ + 1) else round x

/-- Evaluation of `np.round(x, 2)` on an exact rational. -/
def np_round_2 (x : ℚ) : ℚ := (round_half_to_even (x * 100) : ℚ) / 100

/-- The rows of `self.df_summary` built by `Mortgage.compute_summary`, one
field per `(item, value)` pair, in source order.  The field
`interest_to_principal_frac` holds the row labelled
"Interest to principal ratio". -/
structure Summary where
  down_payment_fraction : ℚ
  interest_rate : ℚ
  PMI_rate : ℚ
  total_price : ℚ
  down_payment : ℚ
  principal_loan : ℚ
  interest_to_principal_frac : ℚ
  monthly_PMI_insurance : ℚ
  monthly_principal_and_interest : ℚ
  monthly_payment : ℚ
  monthly_payment_plus_tax : ℚ
  total_tax_paid : ℚ
  total_loan_payment : ℚ
  total_interest_paid : ℚ
  total_PMI_paid : ℚ
  total_cost_no_tax : ℚ
  grand_total : ℚ
deriving DecidableEq

/-- The local `monthly_tax = self.tax_rate * self.total_price / 12.` of
`Mortgage.compute_summary`. -/
def monthly_tax (m : Params) : ℚ := tax_rate * m.total_price / 12

/-- Method `Mortgage.compute_summary`: all derived quantities and the summary
record, translated line by line (`total_tax`, `monthly_tax`,
`total_loan_repayment = _total(P,N,alpha)`, `grand_total`,
`total_interest`, then the `df_summary` rows). -/
def compute_summary (m : Params) : Summary :=
  let α := alpha m
  let N := num_months m
  let P := principal m
  let monthly_PMI := monthly_PMI_payment m
  let total_PMI := _compute_total_PMI_payment m
  let total_tax := tax_rate * m.total_price * m.num_years
  let mtax := monthly_tax m
  let total_loan_repayment := _total P N α
  let gtotal := total_loan_repayment + total_tax + down_payment m + total_PMI
  let total_interest := total_loan_repayment - P
  { down_payment_fraction := m.down_payment_fraction
    interest_rate := m.interest_rate
    PMI_rate := m.PMI_rate
    total_price := m.total_price
    down_payment := down_payment m
    principal_loan := P
    interest_to_principal_frac := np_round_2 (total_interest / P)
    monthly_PMI_insurance := monthly_PMI
    monthly_principal_and_interest := _f P N α
    monthly_payment := _f P N α + monthly_PMI
    monthly_payment_plus_tax := _f P N α + monthly_PMI + mtax
    total_tax_paid := total_tax
    total_loan_payment := total_loan_repayment
    total_interest_paid := total_interest
    total_PMI_paid := total_PMI
    total_cost_no_tax := total_loan_repayment + down_payment m + total_PMI
    grand_total := gtotal }

end Mortgage

/-- Helper: summing a constant over the elements of a list that pass a
filter equals summing the guarded constant over the whole list. -/
lemma sum_const_over_filter {α : Type} (c : ℚ) (q : α → Prop) [DecidablePred q]
    (l : List α) :
    ((l.filter fun x => q x).map fun _ => c).sum =
      (l.map fun x => if q x then c else 0).sum := by
  induction l with
  | nil => simp
  | cons a t ih =>
    rw [List.filter_cons]
    by_cases h : q a
    · rw [if_pos (by simpa using h), List.map_cons, List.sum_cons, ih,
        List.map_cons, List.sum_cons, if_pos h]
    · rw [if_neg (by simpa using h), ih, List.map_cons, List.sum_cons,
        if_neg h, zero_add]

/-- C4: the total insurance payment is `monthly_PMI_payment` summed over
exactly those month indices `k` in `[0, num_months)` whose balance
`_p k` exceeds 80% of the original loan principal
(`total_price − down_payment`), the whole series being scanned. -/
theorem total_PMI_eq_sum_over_threshold_months (m : Params) :
    Mortgage._compute_total_PMI_payment m =
      ((List.range (Mortgage.num_months m)).map fun k =>
        if 0.8 * (m.total_price - Mortgage.down_payment m) <
            _p k (Mortgage.principal m) (Mortgage.num_months m) (Mortgage.alpha m)
        then Mortgage.monthly_PMI_payment m else 0).sum := by
  unfold Mortgage._compute_total_PMI_payment
  rw [sum_const_over_filter (Mortgage.monthly_PMI_payment m)
      (fun p => 0.8 * Mortgage.principal m < p), List.map_map]
  rfl

/-- C5: `monthly_PMI_payment` is `PMI_rate · principal / 12` exactly when
the down-payment fraction is below 20%, and for a down-payment fraction of
at least 20% both the monthly and the total insurance payment are `0`. -/
theorem monthly_PMI_payment_cases (m : Params) :
    (m.down_payment_fraction < 0.2 →
      Mortgage.monthly_PMI_payment m = m.PMI_rate * Mortgage.principal m / 12) ∧
    (0.2 ≤ m.down_payment_fraction →
      Mortgage.monthly_PMI_payment m = 0 ∧
        Mortgage._compute_total_PMI_payment m = 0) := by
  constructor
  · intro h
    simp [Mortgage.monthly_PMI_payment, h]
  · intro h
    have hm : Mortgage.monthly_PMI_payment m = 0 := by
      simp [Mortgage.monthly_PMI_payment, not_lt.mpr h]
    refine ⟨hm, ?_⟩
    unfold Mortgage._compute_total_PMI_payment
    rw [hm]
    apply List.sum_eq_zero
    simp

/-- Witness for C5: a 10% down payment charges `PMI_rate · principal / 12`
monthly, and a 30% down payment charges nothing monthly and in total. -/
theorem monthly_PMI_payment_cases_witness :
    ((Params.mk 100 1 0 (1/10) (1/100)).down_payment_fraction < 0.2 ∧
      Mortgage.monthly_PMI_payment (Params.mk 100 1 0 (1/10) (1/100)) =
        (1/100) * Mortgage.principal (Params.mk 100 1 0 (1/10) (1/100)) / 12) ∧
    (0.2 ≤ (Params.mk 100 1 0 (3/10) (1/100)).down_payment_fraction ∧
      Mortgage.monthly_PMI_payment (Params.mk 100 1 0 (3/10) (1/100)) = 0 ∧
        Mortgage._compute_total_PMI_payment (Params.mk 100 1 0 (3/10) (1/100)) = 0) :=
  ⟨⟨by norm_num, (monthly_PMI_payment_cases _).1 (by norm_num)⟩,
    ⟨by norm_num, (monthly_PMI_payment_cases _).2 (by norm_num)⟩⟩

/-- C7: the derived summary values satisfy, simultaneously:
`total_tax = tax_rate·total_price·num_years`,
`monthly_tax = tax_rate·total_price/12`,
`total_interest = total_loan_repayment − principal`,
`total_cost_no_tax = total_loan_repayment + down_payment + total_PMI`, and
`grand_total = total_cost_no_tax + total_tax`
(so the grand total is repayment + down payment + insurance + tax). -/
theorem summary_totals_identities (m : Params) :
    (Mortgage.compute_summary m).total_tax_paid =
        Mortgage.tax_rate * m.total_price * m.num_years ∧
    Mortgage.monthly_tax m = Mortgage.tax_rate * m.total_price / 12 ∧
    (Mortgage.compute_summary m).total_interest_paid =
        (Mortgage.compute_summary m).total_loan_payment - Mortgage.principal m ∧
    (Mortgage.compute_summary m).total_cost_no_tax =
        (Mortgage.compute_summary m).total_loan_payment +
          Mortgage.down_payment m + (Mortgage.compute_summary m).total_PMI_paid ∧
    (Mortgage.compute_summary m).grand_total =
        (Mortgage.compute_summary m).total_cost_no_tax +
          (Mortgage.compute_summary m).total_tax_paid ∧
    (Mortgage.compute_summary m).grand_total =
        (Mortgage.compute_summary m).total_loan_payment +
          Mortgage.down_payment m + (Mortgage.compute_summary m).total_PMI_paid +
          (Mortgage.compute_summary m).total_tax_paid := by
  refine ⟨rfl, rfl, rfl, rfl, ?_, ?_⟩ <;>
    simp [Mortgage.compute_summary] <;> ring

/-- The mutable state of a `Mortgage` object that `summary` touches:
the constructor parameters and the memoized `self.summary_table`
(`None` before `compute_summary` has run, the computed record after). -/
structure MortgageState where
  params : Params
  summary_table : Option Mortgage.Summary

/-- Construction: `Mortgage.__init__` ends by calling `self.compute_summary()`, which
fills `self.summary_table`. -/
def Mortgage.init (p : Params) : MortgageState :=
  ⟨p, some (Mortgage.compute_summary p)⟩

/-- Method `Mortgage.summary`: `if not self.summary_table: self.compute_summary()`
then `return self.summary_table`.  Returns the record and the
(possibly updated) object state. -/
def Mortgage.summary (st : MortgageState) : Summary × MortgageState :=
  match st.summary_table with
  | none =>
      (Mortgage.compute_summary st.params,
        ⟨st.params, some (Mortgage.compute_summary st.params)⟩)
  | some t => (t, st)

/-- C8: with unchanged parameters, calling `summary()` twice yields
identical records — every field of the second result equals the
corresponding field of the first (record equality in the exact embedding,
whose values are computed deterministically) — and the second call leaves
the state unchanged. -/
theorem summary_idempotent (st : MortgageState) :
    (Mortgage.summary (Mortgage.summary st).2).1 = (Mortgage.summary st).1 ∧
      (Mortgage.summary (Mortgage.summary st).2).2 = (Mortgage.summary st).2 := by
  cases h : st.summary_table <;> simp [Mortgage.summary, h]

/-- The global names bound at module level in `src/mortgage.py` when a
`Mortgage` method runs: the imports and the module-level definitions.
The name `p` is not among them (`_p` is). -/
def module_globals : List String :=
  ["pd", "np", "plt", "sns", "FormatStrFormatter", "FuncFormatter",
   "_p", "_I", "_f", "_X", "_total", "_style", "Mortgage", "main"]

/-- The Python builtin `max` on a list: raises `ValueError` on an empty sequence,
otherwise folds `max` over the elements. -/
def py_max : List ℚ → Except String ℚ
  | [] => Except.error "ValueError: max() arg is an empty sequence"
  | x :: xs => Except.ok (xs.foldl max x)

/-- The body of `Mortgage.get_num_insurance_payments` as it would run if
the name `p` resolved to the module function `_p`: build the balance
series, compare its maximum against `0.8 * self.total_price`, return `0`
in the `>=` branch, and fall through (returning `None`) otherwise. -/
def get_num_insurance_payments_resolved (m : Params) :
    Except String (Option ℕ) :=
  let N := Mortgage.num_months m
  let ps := (List.range N).map fun n =>
    _p n (Mortgage.principal m) N (Mortgage.alpha m)
  let price_q80 := 0.8 * m.total_price
  match py_max ps with
  | Except.error e => Except.error e
  | Except.ok mx =>
      Except.ok (if price_q80 ≤ mx then some 0 else none)

/-- Method `Mortgage.get_num_insurance_payments`: the line `ps = p(ns, P, N, alpha)`
looks up the free name `p`, which is bound neither locally nor at module
level, so the call raises `NameError` before anything else happens. -/
def get_num_insurance_payments (m : Params) : Except String (Option ℕ) :=
  if module_globals.contains "p" then get_num_insurance_payments_resolved m
  else Except.error "NameError: name p is not defined"

/-- C10: `get_num_insurance_payments` always raises `NameError` (the name
`p` is unbound; the module function is `_p`), so it never returns a month
count; and even with the name resolved, the branch where the maximal
balance is below `0.8 * total_price` falls through and returns `None`
(shown at `total_price = 100`, one year, zero rate, 25% down, where the
balance is constantly `75 < 80`). -/
theorem get_num_insurance_payments_raises :
    (∀ m : Params, get_num_insurance_payments m =
      Except.error "NameError: name p is not defined") ∧
    get_num_insurance_payments_resolved (Params.mk 100 1 0 (1/4) (1/100)) =
      Except.ok none := by
  constructor
  · intro m
    rw [get_num_insurance_payments, if_neg]
    decide
  · have hp : ∀ n : ℕ,
        _p n (Mortgage.principal (Params.mk 100 1 0 (1/4) (1/100)))
          12 (Mortgage.alpha (Params.mk 100 1 0 (1/4) (1/100))) = 75 := by
      intro n
      simp [_p, Mortgage.principal, Mortgage.down_payment, Mortgage.alpha]
      norm_num
    have hrange : Mortgage.num_months (Params.mk 100 1 0 (1/4) (1/100)) = 12 := by
      simp [Mortgage.num_months]
    simp only [get_num_insurance_payments_resolved, hp, hrange]
    have hmax : py_max ((List.range 12).map fun _ => (75 : ℚ)) =
        Except.ok 75 := by
      simp [List.range_succ, py_max, max_self]
    rw [hmax]
    norm_num

end MortgageVis
